import Mathlib

/-!
Verification of the request-execution pipeline of the api-client base layer.

The repository ships the pagination helpers (src/apiclient/paginators.py)
and the client test suite (src/tests/test_client.py).  The orchestrating
BaseClient itself (module api_client.client) is not part of the shipped
sources, so its pipeline is modelled from the specification, with the exact
error-message strings taken from the test suite, which is shipped source.
The pipeline is embedded as pure functions that additionally record, per
logical CRUD call, the list of transport invocations, the list of raw
responses handed to the response handler, the list of payloads handed to
the request formatter, and the log messages emitted, so that the
"exactly once" and logging claims are statable.
-/

namespace ApiClient

/-- HTTP verbs used by the five CRUD operations. -/
inductive Verb where
  | post
  | get
  | patch
  | put
  | delete
deriving DecidableEq, Repr

/-- Severity of a log message. -/
inductive LogLevel where
  | error
  | warning
deriving DecidableEq, Repr

/-- Modelled from the spec: the Raw Response returned by the transport
layer, carrying status_code, reason, url and body. -/
structure RawResponse (β : Type) where
  status_code : Nat
  reason : String
  url : String
  body : β
deriving DecidableEq, Repr

/-- Modelled from the spec: the typed errors of the taxonomy raised by the
client, each carrying its message string.  The constructor names follow the
exception classes named in the shipped test suite. -/
inductive ClientError where
  | redirection (message : String)
  | badRequest (message : String)
  | server (message : String)
  | unexpected (message : String)
deriving DecidableEq, Repr

/-- Message string carried by a typed client error. -/
def ClientError.message : ClientError → String
  | .redirection m => m
  | .badRequest m => m
  | .server m => m
  | .unexpected m => m

/-- One invocation of the transport layer: verb, url, the headers and query
params actually sent, and the body sent (none for body-less calls). -/
structure TransportCall (φ : Type) where
  verb : Verb
  url : String
  headers : List (String × String)
  params : List (String × String)
  data : Option φ
deriving DecidableEq, Repr

/-- Observable outcome of one logical CRUD call: the returned value or
typed error, the log messages emitted, and the traces of transport,
response-handler and request-formatter invocations. -/
structure Outcome (α φ β γ : Type) where
  result : Except ClientError γ
  logs : List (LogLevel × String)
  transport_calls : List (TransportCall φ)
  handler_calls : List (RawResponse β)
  formatter_calls : List α
deriving Repr

/-- Modelled from the spec: the per-instance client configuration bundle.
The request formatter maps a logical payload to a wire-ready body and the
response handler extracts the logical payload from a raw response. -/
structure Client (α φ β γ : Type) where
  default_headers : List (String × String)
  default_query_params : List (String × String)
  default_username_password : Option (String × String)
  request_formatter : α → φ
  response_handler : RawResponse β → γ

/-- Modelled from the spec: shallow merge of instance-level defaults with
call-supplied entries, call-supplied values taking precedence per key and
defaults kept for keys not supplied (python dict-update semantics on the
lookup level). -/
def mergeDicts (defaults overrides : List (String × String)) :
    List (String × String) :=
  defaults.filter (fun kv => !(overrides.any (fun kv2 => kv2.1 == kv.1))) ++ overrides

/-- Message format used by every status-code error classification,
as asserted verbatim by the shipped test suite. -/
def errorMessage (status_code : Nat) (reason url : String) : String :=
  toString status_code ++ " Error: " ++ reason ++ " for url: " ++ url

/-- Singleton string holding the ASCII apostrophe character. -/
def squote : String := String.singleton (Char.ofNat 39)

/-- Modelled from the spec: message of the typed error raised when the
transport itself fails, as asserted verbatim by the shipped test suite. -/
def transportErrorMessage (url : String) : String :=
  "Error when contacting " ++ squote ++ url ++ squote

/-- Modelled from the spec: message logged when the transport itself fails,
as asserted verbatim by the shipped test suite. -/
def transportLogMessage (url : String) : String :=
  "An error occurred when contacting " ++ url

/-- Modelled from the spec: classification of a raw response by status
code.  Codes 200-299 delegate to the response handler; 300-399, 400-499
and 500-599 raise redirection, bad-request and server errors; anything
else raises an unexpected error.  Every error classification logs the
identical message (server errors at warning severity, the rest at error
severity).  Returns the call result, the log messages, and the raw
responses handed to the response handler. -/
def classify (handler : RawResponse β → γ) (r : RawResponse β) :
    Except ClientError γ × List (LogLevel × String) × List (RawResponse β) :=
  if 200 ≤ r.status_code ∧ r.status_code ≤ 299 then
    (.ok (handler r), [], [r])
  else if 300 ≤ r.status_code ∧ r.status_code ≤ 399 then
    (.error (.redirection (errorMessage r.status_code r.reason r.url)),
     [(.error, errorMessage r.status_code r.reason r.url)], [])
  else if 400 ≤ r.status_code ∧ r.status_code ≤ 499 then
    (.error (.badRequest (errorMessage r.status_code r.reason r.url)),
     [(.error, errorMessage r.status_code r.reason r.url)], [])
  else if 500 ≤ r.status_code ∧ r.status_code ≤ 599 then
    (.error (.server (errorMessage r.status_code r.reason r.url)),
     [(.warning, errorMessage r.status_code r.reason r.url)], [])
  else
    (.error (.unexpected (errorMessage r.status_code r.reason r.url)),
     [(.error, errorMessage r.status_code r.reason r.url)], [])

/-- Modelled from the spec: the per-call pipeline shared by all CRUD
operations.  Headers and query params are the shallow merge of instance
defaults with the call-supplied values; exactly one transport invocation
is made; a transport failure is wrapped as an unexpected error with the
fixed messages; a transport response is classified by status code. -/
def makeRequest (c : Client α φ β γ) (verb : Verb) (url : String)
    (headers params : List (String × String)) (data : Option φ)
    (transport : TransportCall φ → Except String (RawResponse β)) :
    Outcome α φ β γ :=
  let call : TransportCall φ :=
    { verb := verb
      url := url
      headers := mergeDicts c.default_headers headers
      params := mergeDicts c.default_query_params params
      data := data }
  match transport call with
  | .error _ =>
      { result := .error (.unexpected (transportErrorMessage url))
        logs := [(.error, transportLogMessage url)]
        transport_calls := [call]
        handler_calls := []
        formatter_calls := [] }
  | .ok r =>
      let out := classify c.response_handler r
      { result := out.1
        logs := out.2.1
        transport_calls := [call]
        handler_calls := out.2.2
        formatter_calls := [] }

/-- Modelled from the spec: create dispatches POST, formatting the payload
through the request formatter before transmission. -/
def create (c : Client α φ β γ) (url : String) (data : α)
    (headers params : List (String × String))
    (transport : TransportCall φ → Except String (RawResponse β)) :
    Outcome α φ β γ :=
  { makeRequest c .post url headers params (some (c.request_formatter data)) transport
      with formatter_calls := [data] }

/-- Modelled from the spec: read dispatches GET with no body. -/
def read (c : Client α φ β γ) (url : String)
    (headers params : List (String × String))
    (transport : TransportCall φ → Except String (RawResponse β)) :
    Outcome α φ β γ :=
  makeRequest c .get url headers params none transport

/-- Modelled from the spec: update dispatches PATCH, formatting the payload
through the request formatter before transmission. -/
def update (c : Client α φ β γ) (url : String) (data : α)
    (headers params : List (String × String))
    (transport : TransportCall φ → Except String (RawResponse β)) :
    Outcome α φ β γ :=
  { makeRequest c .patch url headers params (some (c.request_formatter data)) transport
      with formatter_calls := [data] }

/-- Modelled from the spec: replace dispatches PUT, formatting the payload
through the request formatter before transmission. -/
def replace (c : Client α φ β γ) (url : String) (data : α)
    (headers params : List (String × String))
    (transport : TransportCall φ → Except String (RawResponse β)) :
    Outcome α φ β γ :=
  { makeRequest c .put url headers params (some (c.request_formatter data)) transport
      with formatter_calls := [data] }

/-- Modelled from the spec: delete dispatches DELETE with no body. -/
def delete (c : Client α φ β γ) (url : String)
    (headers params : List (String × String))
    (transport : TransportCall φ → Except String (RawResponse β)) :
    Outcome α φ β γ :=
  makeRequest c .delete url headers params none transport

/-- Modelled from the spec: construction of a base client validates the
three injected capabilities before anything else happens (the constructor
performs no transport call) and fails with a distinct message per invalid
argument; an invalid capability is modelled as an absent (none) value.
The message strings are taken verbatim from the shipped test suite. -/
def buildClient (authentication_method : Option τ)
    (response_handler : Option (RawResponse β → γ))
    (request_formatter : Option (α → φ)) :
    Except String (Client α φ β γ) :=
  match authentication_method with
  | none => .error "provided authentication_method must be an instance of BaseAuthenticationMethod."
  | some _ =>
    match response_handler with
    | none => .error "provided response_handler must be a subclass of BaseResponseHandler."
    | some h =>
      match request_formatter with
      | none => .error "provided request_formatter must be a subclass of BaseRequestFormatter."
      | some f =>
        .ok { default_headers := []
              default_query_params := []
              default_username_password := none
              request_formatter := f
              response_handler := h }

/-- Modelled from the spec: replace the default headers with the supplied
mapping. -/
def set_default_headers (c : Client α φ β γ)
    (headers : List (String × String)) : Client α φ β γ :=
  { c with default_headers := headers }

/-- Modelled from the spec: return the default headers. -/
def get_default_headers (c : Client α φ β γ) : List (String × String) :=
  c.default_headers

/-- Modelled from the spec: replace the default query params with the
supplied mapping. -/
def set_default_query_params (c : Client α φ β γ)
    (params : List (String × String)) : Client α φ β γ :=
  { c with default_query_params := params }

/-- Modelled from the spec: return the default query params. -/
def get_default_query_params (c : Client α φ β γ) : List (String × String) :=
  c.default_query_params

/-- Modelled from the spec: replace the default basic-auth pair with the
supplied (username, password) pair. -/
def set_default_username_password_authentication (c : Client α φ β γ)
    (pair : String × String) : Client α φ β γ :=
  { c with default_username_password := some pair }

/-- Modelled from the spec: return the default basic-auth pair. -/
def get_default_username_password_authentication (c : Client α φ β γ) :
    Option (String × String) :=
  c.default_username_password

/-!
Strategy substitution (src/apiclient/paginators.py).

Python clients are heap objects mutated through references, so the scoping
claim is embedded over an explicit store of client objects addressed by
index: cloning appends an independent copy, and setting a strategy mutates
the addressed slot in place.  The paginator helpers are then translated
from paginators.py on top of this store.
-/

/-- Client object as seen by the strategy-substitution layer: its
configuration is opaque here, next to the installed request strategy. -/
structure StrategyClient (κ σ : Type) where
  config : κ
  request_strategy : σ
deriving DecidableEq, Repr

/-- Store of live client objects, addressed by position. -/
abbrev Store (κ σ : Type) : Type := List (StrategyClient κ σ)

/-- Modelled from the spec: clone produces an independent copy of the
configuration with the same strategy reference, as a fresh object in the
store; returns the updated store and the index of the copy. -/
def clone (st : Store κ σ) (i : Nat) : Option (Store κ σ × Nat) :=
  (st.get? i).map (fun c => (st ++ [c], st.length))

/-- Modelled from the spec: set_request_strategy installs the given
strategy on the addressed client object, in place. -/
def set_request_strategy (st : Store κ σ) (i : Nat) (s : σ) : Store κ σ :=
  match st, i with
  | [], _ => []
  | c :: cs, 0 => { c with request_strategy := s } :: cs
  | c :: cs, Nat.succ n => c :: set_request_strategy cs n s

/-- Translated from paginators.set_strategy: clone the client, install the
substituted strategy on the clone, run the body with the temporary clone,
and leave the scope.  Returns the body result and the store as it stands
after the scope ends. -/
def set_strategy (st : Store κ σ) (i : Nat) (strategy : σ)
    (body : StrategyClient κ σ → ρ) : Option (ρ × Store κ σ) :=
  (clone st i).bind (fun p =>
    let st1 := set_request_strategy p.1 p.2 strategy
    (st1.get? p.2).map (fun temporary_client => (body temporary_client, st1)))

/-- Strategy objects built by the paginated decorator: a query-param
paginated strategy around the caller-supplied extraction function, or a
url paginated strategy around the (possibly absent) url extraction
function. -/
inductive PaginationStrategy (q u : Type) where
  | queryParam (by_query_params : q)
  | url (by_url : Option u)
deriving DecidableEq, Repr

/-- Translated from paginators.paginated: pick the strategy from the
supplied extraction functions, preferring the query-param one. -/
def paginatedStrategy (by_query_params : Option q) (by_url : Option u) :
    PaginationStrategy q u :=
  match by_query_params with
  | some f => .queryParam f
  | none => .url by_url

/-- Translated from paginators.paginated.decorator.wrap: run the wrapped
function on the temporary client carrying the decorator strategy, inside
a set_strategy scope. -/
def paginated_wrap (by_query_params : Option q) (by_url : Option u)
    (func : StrategyClient κ (PaginationStrategy q u) → ρ)
    (st : Store κ (PaginationStrategy q u)) (i : Nat) :
    Option (ρ × Store κ (PaginationStrategy q u)) :=
  set_strategy st i (paginatedStrategy by_query_params by_url) func

/-- Outcome out raises the typed error e and logs exactly one message,
identical to the message string carried by e. -/
def raisesAndLogs (out : Outcome α φ β γ) (e : ClientError) : Prop :=
  out.result = Except.error e ∧ out.logs.map Prod.snd = [e.message]

/-- Concrete client used to instantiate witnesses. -/
def sampleClient : Client Nat Nat Nat Nat :=
  { default_headers := [("k", "v")]
    default_query_params := [("q", "w")]
    default_username_password := none
    request_formatter := fun n => n + 1
    response_handler := fun r => r.body }

/-- Concrete raw response used to instantiate witnesses. -/
def sampleResponse (status_code : Nat) : RawResponse Nat :=
  { status_code := status_code, reason := "why", url := "u", body := 7 }

/-- Dictionary lookup on an association list, first binding wins: the
observable mapping a sent headers or params dictionary denotes. -/
def lookupKey (k : String) : List (String × String) → Option String
  | [] => none
  | kv :: rest => if kv.1 = k then some kv.2 else lookupKey k rest

/-- Concrete store with one client object, used to instantiate witnesses. -/
def sampleStore : Store Nat Nat := [{ config := 5, request_strategy := 1 }]

/-- Concrete store of one client holding a pagination strategy, used to
instantiate witnesses. -/
def samplePageStore : Store Nat (PaginationStrategy Nat Nat) :=
  [{ config := 5, request_strategy := .url none }]

/-- The error-message format evaluates as the tests assert it. -/
theorem errorMessage_eval : errorMessage 304 "why" "u" = "304 Error: why for url: u" := by
  decide

/-- The squote string is the single ASCII apostrophe character, code 39. -/
theorem squote_eval : squote.toList.map Char.toNat = [39] := by
  decide

/-- Classification of a 2xx response delegates to the handler. -/
theorem classify_success (handler : RawResponse β → γ) (r : RawResponse β)
    (h1 : 200 ≤ r.status_code) (h2 : r.status_code ≤ 299) :
    classify handler r = (.ok (handler r), [], [r]) := by
  unfold classify
  rw [if_pos ⟨h1, h2⟩]

/-- Classification of a 3xx response. -/
theorem classify_redirection (handler : RawResponse β → γ) (r : RawResponse β)
    (h1 : 300 ≤ r.status_code) (h2 : r.status_code ≤ 399) :
    classify handler r =
      (.error (.redirection (errorMessage r.status_code r.reason r.url)),
       [(.error, errorMessage r.status_code r.reason r.url)], []) := by
  unfold classify
  rw [if_neg (by omega), if_pos ⟨h1, h2⟩]

/-- Classification of a 4xx response. -/
theorem classify_badRequest (handler : RawResponse β → γ) (r : RawResponse β)
    (h1 : 400 ≤ r.status_code) (h2 : r.status_code ≤ 499) :
    classify handler r =
      (.error (.badRequest (errorMessage r.status_code r.reason r.url)),
       [(.error, errorMessage r.status_code r.reason r.url)], []) := by
  unfold classify
  rw [if_neg (by omega), if_neg (by omega), if_pos ⟨h1, h2⟩]

/-- Classification of a 5xx response. -/
theorem classify_server (handler : RawResponse β → γ) (r : RawResponse β)
    (h1 : 500 ≤ r.status_code) (h2 : r.status_code ≤ 599) :
    classify handler r =
      (.error (.server (errorMessage r.status_code r.reason r.url)),
       [(.warning, errorMessage r.status_code r.reason r.url)], []) := by
  unfold classify
  rw [if_neg (by omega), if_neg (by omega), if_neg (by omega), if_pos ⟨h1, h2⟩]

/-- Classification of a status code outside 2xx-5xx. -/
theorem classify_unexpected (handler : RawResponse β → γ) (r : RawResponse β)
    (h : r.status_code < 200 ∨ 600 ≤ r.status_code) :
    classify handler r =
      (.error (.unexpected (errorMessage r.status_code r.reason r.url)),
       [(.error, errorMessage r.status_code r.reason r.url)], []) := by
  unfold classify
  rw [if_neg (by omega), if_neg (by omega), if_neg (by omega), if_neg (by omega)]

/-- The pipeline raises and logs according to the classification of the
response delivered by the transport. -/
theorem raisesAndLogs_makeRequest (c : Client α φ β γ) (verb : Verb) (url : String)
    (hs ps : List (String × String)) (d : Option φ) (r : RawResponse β)
    (e : ClientError) (lvl : LogLevel)
    (hcl : classify c.response_handler r = (Except.error e, [(lvl, e.message)], [])) :
    raisesAndLogs (makeRequest c verb url hs ps d (fun _ => Except.ok r)) e := by
  constructor
  · show (classify c.response_handler r).1 = Except.error e
    rw [hcl]
  · show ((classify c.response_handler r).2.1).map Prod.snd = [e.message]
    rw [hcl]
    rfl

/-- C1: for every raw response with status_code in 300-399 a Redirection
error is raised, in 400-499 a Bad-Request error is raised, and in 500-599
a Server error is raised, from every CRUD call (create, read, update,
replace, delete); in each case the raised typed error carries exactly the
message built by errorMessage from the status_code, reason and url of the
response, and a message identical to that string is logged. -/
theorem crud_http_error_classification
    (c : Client α φ β γ) (url : String) (data : α)
    (hs ps : List (String × String)) (r3 r4 r5 : RawResponse β)
    (h3l : 300 ≤ r3.status_code) (h3u : r3.status_code ≤ 399)
    (h4l : 400 ≤ r4.status_code) (h4u : r4.status_code ≤ 499)
    (h5l : 500 ≤ r5.status_code) (h5u : r5.status_code ≤ 599) :
    (raisesAndLogs (create c url data hs ps (fun _ => Except.ok r3))
        (.redirection (errorMessage r3.status_code r3.reason r3.url)) ∧
     raisesAndLogs (read c url hs ps (fun _ => Except.ok r3))
        (.redirection (errorMessage r3.status_code r3.reason r3.url)) ∧
     raisesAndLogs (update c url data hs ps (fun _ => Except.ok r3))
        (.redirection (errorMessage r3.status_code r3.reason r3.url)) ∧
     raisesAndLogs (replace c url data hs ps (fun _ => Except.ok r3))
        (.redirection (errorMessage r3.status_code r3.reason r3.url)) ∧
     raisesAndLogs (delete c url hs ps (fun _ => Except.ok r3))
        (.redirection (errorMessage r3.status_code r3.reason r3.url))) ∧
    (raisesAndLogs (create c url data hs ps (fun _ => Except.ok r4))
        (.badRequest (errorMessage r4.status_code r4.reason r4.url)) ∧
     raisesAndLogs (read c url hs ps (fun _ => Except.ok r4))
        (.badRequest (errorMessage r4.status_code r4.reason r4.url)) ∧
     raisesAndLogs (update c url data hs ps (fun _ => Except.ok r4))
        (.badRequest (errorMessage r4.status_code r4.reason r4.url)) ∧
     raisesAndLogs (replace c url data hs ps (fun _ => Except.ok r4))
        (.badRequest (errorMessage r4.status_code r4.reason r4.url)) ∧
     raisesAndLogs (delete c url hs ps (fun _ => Except.ok r4))
        (.badRequest (errorMessage r4.status_code r4.reason r4.url))) ∧
    (raisesAndLogs (create c url data hs ps (fun _ => Except.ok r5))
        (.server (errorMessage r5.status_code r5.reason r5.url)) ∧
     raisesAndLogs (read c url hs ps (fun _ => Except.ok r5))
        (.server (errorMessage r5.status_code r5.reason r5.url)) ∧
     raisesAndLogs (update c url data hs ps (fun _ => Except.ok r5))
        (.server (errorMessage r5.status_code r5.reason r5.url)) ∧
     raisesAndLogs (replace c url data hs ps (fun _ => Except.ok r5))
        (.server (errorMessage r5.status_code r5.reason r5.url)) ∧
     raisesAndLogs (delete c url hs ps (fun _ => Except.ok r5))
        (.server (errorMessage r5.status_code r5.reason r5.url))) := by
  have H3 := classify_redirection c.response_handler r3 h3l h3u
  have H4 := classify_badRequest c.response_handler r4 h4l h4u
  have H5 := classify_server c.response_handler r5 h5l h5u
  exact ⟨⟨raisesAndLogs_makeRequest c .post url hs ps (some (c.request_formatter data)) r3 _ .error H3,
          raisesAndLogs_makeRequest c .get url hs ps none r3 _ .error H3,
          raisesAndLogs_makeRequest c .patch url hs ps (some (c.request_formatter data)) r3 _ .error H3,
          raisesAndLogs_makeRequest c .put url hs ps (some (c.request_formatter data)) r3 _ .error H3,
          raisesAndLogs_makeRequest c .delete url hs ps none r3 _ .error H3⟩,
         ⟨raisesAndLogs_makeRequest c .post url hs ps (some (c.request_formatter data)) r4 _ .error H4,
          raisesAndLogs_makeRequest c .get url hs ps none r4 _ .error H4,
          raisesAndLogs_makeRequest c .patch url hs ps (some (c.request_formatter data)) r4 _ .error H4,
          raisesAndLogs_makeRequest c .put url hs ps (some (c.request_formatter data)) r4 _ .error H4,
          raisesAndLogs_makeRequest c .delete url hs ps none r4 _ .error H4⟩,
         ⟨raisesAndLogs_makeRequest c .post url hs ps (some (c.request_formatter data)) r5 _ .warning H5,
          raisesAndLogs_makeRequest c .get url hs ps none r5 _ .warning H5,
          raisesAndLogs_makeRequest c .patch url hs ps (some (c.request_formatter data)) r5 _ .warning H5,
          raisesAndLogs_makeRequest c .put url hs ps (some (c.request_formatter data)) r5 _ .warning H5,
          raisesAndLogs_makeRequest c .delete url hs ps none r5 _ .warning H5⟩⟩

/-- Witness for C1: a 304 read raises a Redirection error, a 404 create a
Bad-Request error and a 500 delete a Server error, each with the asserted
message raised and logged. -/
theorem crud_http_error_classification_witness :
    raisesAndLogs (read sampleClient "u" [] [] (fun _ => Except.ok (sampleResponse 304)))
      (.redirection (errorMessage 304 "why" "u")) ∧
    raisesAndLogs (create sampleClient "u" 0 [] [] (fun _ => Except.ok (sampleResponse 404)))
      (.badRequest (errorMessage 404 "why" "u")) ∧
    raisesAndLogs (delete sampleClient "u" [] [] (fun _ => Except.ok (sampleResponse 500)))
      (.server (errorMessage 500 "why" "u")) := by
  have h := crud_http_error_classification sampleClient "u" 0 [] []
    (sampleResponse 304) (sampleResponse 404) (sampleResponse 500)
    (by decide) (by decide) (by decide) (by decide) (by decide) (by decide)
  exact ⟨h.1.2.1, h.2.1.1, h.2.2.2.2.2.2⟩

/-- C2: for every raw response with a status_code outside 200-599, every
CRUD call raises an Unexpected error carrying the classification message
and logs that same message. -/
theorem crud_unexpected_status_classification
    (c : Client α φ β γ) (url : String) (data : α)
    (hs ps : List (String × String)) (r : RawResponse β)
    (h : r.status_code < 200 ∨ 600 ≤ r.status_code) :
    raisesAndLogs (create c url data hs ps (fun _ => Except.ok r))
      (.unexpected (errorMessage r.status_code r.reason r.url)) ∧
    raisesAndLogs (read c url hs ps (fun _ => Except.ok r))
      (.unexpected (errorMessage r.status_code r.reason r.url)) ∧
    raisesAndLogs (update c url data hs ps (fun _ => Except.ok r))
      (.unexpected (errorMessage r.status_code r.reason r.url)) ∧
    raisesAndLogs (replace c url data hs ps (fun _ => Except.ok r))
      (.unexpected (errorMessage r.status_code r.reason r.url)) ∧
    raisesAndLogs (delete c url hs ps (fun _ => Except.ok r))
      (.unexpected (errorMessage r.status_code r.reason r.url)) := by
  have H := classify_unexpected c.response_handler r h
  exact ⟨raisesAndLogs_makeRequest c .post url hs ps (some (c.request_formatter data)) r _ .error H,
         raisesAndLogs_makeRequest c .get url hs ps none r _ .error H,
         raisesAndLogs_makeRequest c .patch url hs ps (some (c.request_formatter data)) r _ .error H,
         raisesAndLogs_makeRequest c .put url hs ps (some (c.request_formatter data)) r _ .error H,
         raisesAndLogs_makeRequest c .delete url hs ps none r _ .error H⟩

/-- Witness for C2: a 100 response makes an update raise and log an
Unexpected error with the classification message. -/
theorem crud_unexpected_status_classification_witness :
    raisesAndLogs (update sampleClient "u" 0 [] [] (fun _ => Except.ok (sampleResponse 100)))
      (.unexpected (errorMessage 100 "why" "u")) := by
  have h := crud_unexpected_status_classification sampleClient "u" 0 [] []
    (sampleResponse 100) (by decide)
  exact h.2.2.1

/-- C3: for every CRUD call, if the transport function fails (with any
exception value), the call raises an Unexpected error whose message is
exactly transportErrorMessage url, and logs at error severity exactly
the message transportLogMessage url. -/
theorem crud_transport_failure_wrapped
    (c : Client α φ β γ) (url : String) (data : α)
    (hs ps : List (String × String)) (exc : String) :
    ((create c url data hs ps (fun _ => Except.error exc)).result
        = Except.error (.unexpected (transportErrorMessage url)) ∧
     (create c url data hs ps (fun _ => Except.error exc)).logs
        = [(.error, transportLogMessage url)]) ∧
    ((read c url hs ps (fun _ => Except.error exc)).result
        = Except.error (.unexpected (transportErrorMessage url)) ∧
     (read c url hs ps (fun _ => Except.error exc)).logs
        = [(.error, transportLogMessage url)]) ∧
    ((update c url data hs ps (fun _ => Except.error exc)).result
        = Except.error (.unexpected (transportErrorMessage url)) ∧
     (update c url data hs ps (fun _ => Except.error exc)).logs
        = [(.error, transportLogMessage url)]) ∧
    ((replace c url data hs ps (fun _ => Except.error exc)).result
        = Except.error (.unexpected (transportErrorMessage url)) ∧
     (replace c url data hs ps (fun _ => Except.error exc)).logs
        = [(.error, transportLogMessage url)]) ∧
    ((delete c url hs ps (fun _ => Except.error exc)).result
        = Except.error (.unexpected (transportErrorMessage url)) ∧
     (delete c url hs ps (fun _ => Except.error exc)).logs
        = [(.error, transportLogMessage url)]) :=
  ⟨⟨rfl, rfl⟩, ⟨rfl, rfl⟩, ⟨rfl, rfl⟩, ⟨rfl, rfl⟩, ⟨rfl, rfl⟩⟩

/-- The pipeline hands a successfully classified response to the handler
exactly once and returns the handler result. -/
theorem makeRequest_success_spec (c : Client α φ β γ) (verb : Verb) (url : String)
    (hs ps : List (String × String)) (d : Option φ) (r : RawResponse β)
    (h1 : 200 ≤ r.status_code) (h2 : r.status_code ≤ 299) :
    (makeRequest c verb url hs ps d (fun _ => Except.ok r)).handler_calls = [r] ∧
    (makeRequest c verb url hs ps d (fun _ => Except.ok r)).result
      = Except.ok (c.response_handler r) := by
  have hcl := classify_success c.response_handler r h1 h2
  constructor
  · show (classify c.response_handler r).2.2 = [r]
    rw [hcl]
  · show (classify c.response_handler r).1 = Except.ok (c.response_handler r)
    rw [hcl]

/-- C4: for every raw response with status_code in 200-299, every CRUD
call passes that raw response unmodified to the configured response
handler exactly once (the handler trace is exactly the singleton of the
raw response) and returns the handler result as the call result. -/
theorem crud_success_delegates_to_handler
    (c : Client α φ β γ) (url : String) (data : α)
    (hs ps : List (String × String)) (r : RawResponse β)
    (h1 : 200 ≤ r.status_code) (h2 : r.status_code ≤ 299) :
    ((create c url data hs ps (fun _ => Except.ok r)).handler_calls = [r] ∧
     (create c url data hs ps (fun _ => Except.ok r)).result
        = Except.ok (c.response_handler r)) ∧
    ((read c url hs ps (fun _ => Except.ok r)).handler_calls = [r] ∧
     (read c url hs ps (fun _ => Except.ok r)).result
        = Except.ok (c.response_handler r)) ∧
    ((update c url data hs ps (fun _ => Except.ok r)).handler_calls = [r] ∧
     (update c url data hs ps (fun _ => Except.ok r)).result
        = Except.ok (c.response_handler r)) ∧
    ((replace c url data hs ps (fun _ => Except.ok r)).handler_calls = [r] ∧
     (replace c url data hs ps (fun _ => Except.ok r)).result
        = Except.ok (c.response_handler r)) ∧
    ((delete c url hs ps (fun _ => Except.ok r)).handler_calls = [r] ∧
     (delete c url hs ps (fun _ => Except.ok r)).result
        = Except.ok (c.response_handler r)) :=
  ⟨makeRequest_success_spec c .post url hs ps (some (c.request_formatter data)) r h1 h2,
   makeRequest_success_spec c .get url hs ps none r h1 h2,
   makeRequest_success_spec c .patch url hs ps (some (c.request_formatter data)) r h1 h2,
   makeRequest_success_spec c .put url hs ps (some (c.request_formatter data)) r h1 h2,
   makeRequest_success_spec c .delete url hs ps none r h1 h2⟩

/-- Witness for C4: a 200 read hands the raw response to the handler once
and returns the handler result, here the response body 7. -/
theorem crud_success_delegates_to_handler_witness :
    (read sampleClient "u" [] [] (fun _ => Except.ok (sampleResponse 200))).handler_calls
      = [sampleResponse 200] ∧
    (read sampleClient "u" [] [] (fun _ => Except.ok (sampleResponse 200))).result
      = Except.ok 7 := by
  have h := crud_success_delegates_to_handler sampleClient "u" 0 [] []
    (sampleResponse 200) (by decide) (by decide)
  exact h.2.1

/-- C5: constructing a base client with an absent authentication_method,
response_handler or request_formatter fails, with a distinct specific
message identifying the invalid argument; the constructor performs no
transport call (it does not even receive a transport function). -/
theorem buildClient_validates_arguments (a : τ) (h : RawResponse β → γ) (f : α → φ) :
    buildClient (τ := τ) (none : Option τ) (some h) (some f)
      = Except.error "provided authentication_method must be an instance of BaseAuthenticationMethod." ∧
    buildClient (some a) (none : Option (RawResponse β → γ)) (some f)
      = Except.error "provided response_handler must be a subclass of BaseResponseHandler." ∧
    buildClient (some a) (some h) (none : Option (α → φ))
      = Except.error "provided request_formatter must be a subclass of BaseRequestFormatter." ∧
    ("provided authentication_method must be an instance of BaseAuthenticationMethod."
        ≠ "provided response_handler must be a subclass of BaseResponseHandler." ∧
     "provided authentication_method must be an instance of BaseAuthenticationMethod."
        ≠ "provided request_formatter must be a subclass of BaseRequestFormatter." ∧
     "provided response_handler must be a subclass of BaseResponseHandler."
        ≠ "provided request_formatter must be a subclass of BaseRequestFormatter.") :=
  ⟨rfl, rfl, rfl, by decide, by decide, by decide⟩

/-- Lookup of a key past a binding with a different key. -/
theorem lookupKey_cons_ne (hd : String × String) (tl : List (String × String))
    (k : String) (h : ¬ hd.1 = k) : lookupKey k (hd :: tl) = lookupKey k tl := by
  simp only [lookupKey]
  rw [if_neg h]

/-- Lookup of a key at a binding with that key. -/
theorem lookupKey_cons_eq (hd : String × String) (tl : List (String × String))
    (k : String) (h : hd.1 = k) : lookupKey k (hd :: tl) = some hd.2 := by
  simp only [lookupKey]
  rw [if_pos h]

/-- Lookup of an absent key yields nothing. -/
theorem lookupKey_eq_none_of_not_mem (o : List (String × String)) (k : String)
    (h : k ∉ o.map Prod.fst) : lookupKey k o = none := by
  induction o with
  | nil => rfl
  | cons hd tl ih =>
    simp only [List.map_cons, List.mem_cons, not_or] at h
    rw [lookupKey_cons_ne hd tl k (fun he => h.1 he.symm), ih h.2]

/-- Lookup over the shallow merge: an overridden key resolves to the
call-supplied value, any other key to its default value. -/
theorem lookupKey_mergeDicts (d o : List (String × String)) (k : String) :
    lookupKey k (mergeDicts d o) =
      if k ∈ o.map Prod.fst then lookupKey k o else lookupKey k d := by
  induction d with
  | nil =>
    show lookupKey k o = _
    split
    · rfl
    · next hnot => rw [lookupKey_eq_none_of_not_mem o k hnot]; rfl
  | cons hd tl ih =>
    by_cases hb : hd.1 ∈ o.map Prod.fst
    · have hany : (o.any (fun kv2 => kv2.1 == hd.1)) = true := by
        obtain ⟨kv, hkv, hkeq⟩ := List.mem_map.mp hb
        exact List.any_eq_true.mpr ⟨kv, hkv, beq_iff_eq.mpr hkeq⟩
      have hmerge : mergeDicts (hd :: tl) o = mergeDicts tl o := by
        simp [mergeDicts, List.filter_cons, hany]
      rw [hmerge, ih]
      split
      · rfl
      · next hk =>
        have hne : ¬ hd.1 = k := fun he => hk (he ▸ hb)
        rw [lookupKey_cons_ne hd tl k hne]
    · have hany : (o.any (fun kv2 => kv2.1 == hd.1)) = false := by
        cases hx : o.any (fun kv2 => kv2.1 == hd.1) with
        | false => rfl
        | true =>
          exfalso
          obtain ⟨kv, hkv, hkeq⟩ := List.any_eq_true.mp hx
          exact hb (List.mem_map.mpr ⟨kv, hkv, beq_iff_eq.mp hkeq⟩)
      have hmerge : mergeDicts (hd :: tl) o = hd :: mergeDicts tl o := by
        simp [mergeDicts, List.filter_cons, hany]
      rw [hmerge]
      by_cases hkh : hd.1 = k
      · have hknot : k ∉ o.map Prod.fst := fun hmem => hb (by rw [hkh]; exact hmem)
        rw [if_neg hknot, lookupKey_cons_eq hd (mergeDicts tl o) k hkh,
          lookupKey_cons_eq hd tl k hkh]
      · rw [lookupKey_cons_ne hd (mergeDicts tl o) k hkh, ih]
        split
        · rfl
        · rw [lookupKey_cons_ne hd tl k hkh]

/-- The pipeline makes exactly one transport invocation, carrying the
merged headers and params and the supplied body. -/
theorem makeRequest_transport_calls (c : Client α φ β γ) (verb : Verb) (url : String)
    (hs ps : List (String × String)) (d : Option φ)
    (transport : TransportCall φ → Except String (RawResponse β)) :
    (makeRequest c verb url hs ps d transport).transport_calls =
      [{ verb := verb, url := url, headers := mergeDicts c.default_headers hs,
         params := mergeDicts c.default_query_params ps, data := d }] := by
  cases htr : transport ⟨verb, url, mergeDicts c.default_headers hs,
      mergeDicts c.default_query_params ps, d⟩ with
  | error e => simp [makeRequest, htr]
  | ok r => simp [makeRequest, htr]

/-- C6: for every CRUD call, the headers and query params sent to the
transport are the shallow merge of the instance defaults with the
call-supplied dictionaries, and under that merge every key supplied at
call level resolves to the call-supplied value while every key not
supplied at call level keeps its default value. -/
theorem crud_merges_defaults
    (c : Client α φ β γ) (url : String) (data : α)
    (hs ps : List (String × String))
    (transport : TransportCall φ → Except String (RawResponse β)) (k : String) :
    ((create c url data hs ps transport).transport_calls.map
        (fun tc => (tc.headers, tc.params))
      = [(mergeDicts c.default_headers hs, mergeDicts c.default_query_params ps)] ∧
     (read c url hs ps transport).transport_calls.map
        (fun tc => (tc.headers, tc.params))
      = [(mergeDicts c.default_headers hs, mergeDicts c.default_query_params ps)] ∧
     (update c url data hs ps transport).transport_calls.map
        (fun tc => (tc.headers, tc.params))
      = [(mergeDicts c.default_headers hs, mergeDicts c.default_query_params ps)] ∧
     (replace c url data hs ps transport).transport_calls.map
        (fun tc => (tc.headers, tc.params))
      = [(mergeDicts c.default_headers hs, mergeDicts c.default_query_params ps)] ∧
     (delete c url hs ps transport).transport_calls.map
        (fun tc => (tc.headers, tc.params))
      = [(mergeDicts c.default_headers hs, mergeDicts c.default_query_params ps)]) ∧
    (k ∈ hs.map Prod.fst →
      lookupKey k (mergeDicts c.default_headers hs) = lookupKey k hs) ∧
    (k ∉ hs.map Prod.fst →
      lookupKey k (mergeDicts c.default_headers hs) = lookupKey k c.default_headers) ∧
    (k ∈ ps.map Prod.fst →
      lookupKey k (mergeDicts c.default_query_params ps) = lookupKey k ps) ∧
    (k ∉ ps.map Prod.fst →
      lookupKey k (mergeDicts c.default_query_params ps)
        = lookupKey k c.default_query_params) := by
  refine ⟨⟨?_, ?_, ?_, ?_, ?_⟩, ?_, ?_, ?_, ?_⟩
  · show ((makeRequest c .post url hs ps (some (c.request_formatter data))
        transport).transport_calls).map (fun tc => (tc.headers, tc.params)) = _
    rw [makeRequest_transport_calls]
    rfl
  · show ((makeRequest c .get url hs ps none
        transport).transport_calls).map (fun tc => (tc.headers, tc.params)) = _
    rw [makeRequest_transport_calls]
    rfl
  · show ((makeRequest c .patch url hs ps (some (c.request_formatter data))
        transport).transport_calls).map (fun tc => (tc.headers, tc.params)) = _
    rw [makeRequest_transport_calls]
    rfl
  · show ((makeRequest c .put url hs ps (some (c.request_formatter data))
        transport).transport_calls).map (fun tc => (tc.headers, tc.params)) = _
    rw [makeRequest_transport_calls]
    rfl
  · show ((makeRequest c .delete url hs ps none
        transport).transport_calls).map (fun tc => (tc.headers, tc.params)) = _
    rw [makeRequest_transport_calls]
    rfl
  · intro hmem
    rw [lookupKey_mergeDicts, if_pos hmem]
  · intro hmem
    rw [lookupKey_mergeDicts, if_neg hmem]
  · intro hmem
    rw [lookupKey_mergeDicts, if_pos hmem]
  · intro hmem
    rw [lookupKey_mergeDicts, if_neg hmem]

/-- Witness for C6: a read sends the merged dictionaries; the overridden
key q resolves to the call-supplied value and the key q absent from the
call headers keeps resolving to the default headers. -/
theorem crud_merges_defaults_witness :
    (read sampleClient "u" [("h", "x")] [("q", "z")]
        (fun _ => Except.error "e")).transport_calls.map
        (fun tc => (tc.headers, tc.params))
      = [(mergeDicts [("k", "v")] [("h", "x")],
          mergeDicts [("q", "w")] [("q", "z")])] ∧
    lookupKey "q" (mergeDicts [("k", "v")] [("h", "x")])
      = lookupKey "q" [("k", "v")] ∧
    lookupKey "q" (mergeDicts [("q", "w")] [("q", "z")])
      = lookupKey "q" [("q", "z")] := by
  have h := crud_merges_defaults sampleClient "u" 0 [("h", "x")] [("q", "z")]
    (fun _ => Except.error "e") "q"
  exact ⟨h.1.2.1, h.2.2.1 (by decide), h.2.2.2.1 (by decide)⟩

/-- C7: for every call to create, update or replace, the supplied payload
is passed through the configured request formatter exactly once (the
formatter trace is exactly the singleton of the payload) and the formatter
output is what is sent as the request body of the single transport
invocation. -/
theorem body_calls_pass_through_formatter
    (c : Client α φ β γ) (url : String) (data : α)
    (hs ps : List (String × String))
    (transport : TransportCall φ → Except String (RawResponse β)) :
    ((create c url data hs ps transport).formatter_calls = [data] ∧
     (create c url data hs ps transport).transport_calls.map (fun tc => tc.data)
        = [some (c.request_formatter data)]) ∧
    ((update c url data hs ps transport).formatter_calls = [data] ∧
     (update c url data hs ps transport).transport_calls.map (fun tc => tc.data)
        = [some (c.request_formatter data)]) ∧
    ((replace c url data hs ps transport).formatter_calls = [data] ∧
     (replace c url data hs ps transport).transport_calls.map (fun tc => tc.data)
        = [some (c.request_formatter data)]) := by
  refine ⟨⟨rfl, ?_⟩, ⟨rfl, ?_⟩, ⟨rfl, ?_⟩⟩
  · show ((makeRequest c .post url hs ps (some (c.request_formatter data))
        transport).transport_calls).map (fun tc => tc.data) = _
    rw [makeRequest_transport_calls]
    rfl
  · show ((makeRequest c .patch url hs ps (some (c.request_formatter data))
        transport).transport_calls).map (fun tc => tc.data) = _
    rw [makeRequest_transport_calls]
    rfl
  · show ((makeRequest c .put url hs ps (some (c.request_formatter data))
        transport).transport_calls).map (fun tc => tc.data) = _
    rw [makeRequest_transport_calls]
    rfl

/-- C9: each default-config mutator overwrites the previously set value
entirely: after setting v1 and then v2, the corresponding getter returns
exactly v2 (for the basic-auth pair, the present value v2). -/
theorem default_setters_overwrite (c : Client α φ β γ)
    (h1 h2 p1 p2 : List (String × String)) (a1 a2 : String × String) :
    get_default_headers (set_default_headers (set_default_headers c h1) h2) = h2 ∧
    get_default_query_params
      (set_default_query_params (set_default_query_params c p1) p2) = p2 ∧
    get_default_username_password_authentication
      (set_default_username_password_authentication
        (set_default_username_password_authentication c a1) a2) = some a2 :=
  ⟨rfl, rfl, rfl⟩

/-- C10: under the default strategy each logical CRUD call makes exactly
one transport invocation with a fixed verb: create POST, read GET, update
PATCH, replace PUT, delete DELETE; read and delete send no body. -/
theorem crud_verb_dispatch
    (c : Client α φ β γ) (url : String) (data : α)
    (hs ps : List (String × String))
    (transport : TransportCall φ → Except String (RawResponse β)) :
    (create c url data hs ps transport).transport_calls
      = [{ verb := .post, url := url, headers := mergeDicts c.default_headers hs,
           params := mergeDicts c.default_query_params ps,
           data := some (c.request_formatter data) }] ∧
    (read c url hs ps transport).transport_calls
      = [{ verb := .get, url := url, headers := mergeDicts c.default_headers hs,
           params := mergeDicts c.default_query_params ps, data := none }] ∧
    (update c url data hs ps transport).transport_calls
      = [{ verb := .patch, url := url, headers := mergeDicts c.default_headers hs,
           params := mergeDicts c.default_query_params ps,
           data := some (c.request_formatter data) }] ∧
    (replace c url data hs ps transport).transport_calls
      = [{ verb := .put, url := url, headers := mergeDicts c.default_headers hs,
           params := mergeDicts c.default_query_params ps,
           data := some (c.request_formatter data) }] ∧
    (delete c url hs ps transport).transport_calls
      = [{ verb := .delete, url := url, headers := mergeDicts c.default_headers hs,
           params := mergeDicts c.default_query_params ps, data := none }] :=
  ⟨makeRequest_transport_calls c .post url hs ps (some (c.request_formatter data)) transport,
   makeRequest_transport_calls c .get url hs ps none transport,
   makeRequest_transport_calls c .patch url hs ps (some (c.request_formatter data)) transport,
   makeRequest_transport_calls c .put url hs ps (some (c.request_formatter data)) transport,
   makeRequest_transport_calls c .delete url hs ps none transport⟩

/-- Installing a strategy on the freshly appended clone only touches the
appended slot. -/
theorem set_request_strategy_concat (st : Store κ σ) (c : StrategyClient κ σ)
    (s : σ) :
    set_request_strategy (st ++ [c]) st.length s
      = st ++ [{ c with request_strategy := s }] := by
  induction st with
  | nil => rfl
  | cons hd tl ih =>
    show hd :: set_request_strategy (tl ++ [c]) tl.length s
        = hd :: (tl ++ [{ c with request_strategy := s }])
    rw [ih]

/-- Behaviour of the set_strategy scope at a live client index: the body
runs on the temporary clone carrying the substituted strategy and the
original configuration, the store gains only that clone, and the original
slot is untouched. -/
theorem set_strategy_spec (st : Store κ σ) (i : Nat) (s : σ)
    (body : StrategyClient κ σ → ρ) (c : StrategyClient κ σ)
    (hc : st.get? i = some c) :
    set_strategy st i s body
      = some (body { c with request_strategy := s },
              st ++ [{ c with request_strategy := s }]) ∧
    (st ++ [{ c with request_strategy := s }]).get? i = some c := by
  obtain ⟨hlen, -⟩ := List.get?_eq_some.mp hc
  constructor
  · simp only [set_strategy, clone, hc, Option.map_some', Option.some_bind]
    rw [set_request_strategy_concat, List.get?_concat_length]
    rfl
  · rw [List.get?_append hlen]
    exact hc

/-- C8: strategy substitution is scoped.  set_strategy runs its body on a
temporary clone carrying the substituted strategy, and the paginated
decorator wrap does the same with the decorator strategy; in both cases
the store after the scope holds the original client object unchanged at
its index (only a fresh clone was appended). -/
theorem strategy_substitution_scoped
    (st : Store κ σ) (i : Nat) (s : σ) (body : StrategyClient κ σ → ρ)
    (c : StrategyClient κ σ) (hc : st.get? i = some c)
    (st2 : Store κ2 (PaginationStrategy q u)) (i2 : Nat)
    (bq : Option q) (bu : Option u)
    (func : StrategyClient κ2 (PaginationStrategy q u) → ρ2)
    (c2 : StrategyClient κ2 (PaginationStrategy q u))
    (hc2 : st2.get? i2 = some c2) :
    (set_strategy st i s body
        = some (body { c with request_strategy := s },
                st ++ [{ c with request_strategy := s }]) ∧
     (st ++ [{ c with request_strategy := s }]).get? i = some c) ∧
    (paginated_wrap bq bu func st2 i2
        = some (func { c2 with request_strategy := paginatedStrategy bq bu },
                st2 ++ [{ c2 with request_strategy := paginatedStrategy bq bu }]) ∧
     (st2 ++ [{ c2 with request_strategy := paginatedStrategy bq bu }]).get? i2
        = some c2) :=
  ⟨set_strategy_spec st i s body c hc,
   set_strategy_spec st2 i2 (paginatedStrategy bq bu) func c2 hc2⟩

/-- Witness for C8: on a one-client store, set_strategy hands its body the
clone with the substituted strategy 2 and leaves slot 0 at strategy 1, and
the paginated wrap with a query-param extraction function hands its body
the clone with the query-param strategy and leaves slot 0 unchanged. -/
theorem strategy_substitution_scoped_witness :
    (set_strategy sampleStore 0 2 (fun tc => tc.request_strategy)
        = some (2, sampleStore ++ [{ config := 5, request_strategy := 2 }]) ∧
     (sampleStore ++ [({ config := 5, request_strategy := 2 } : StrategyClient Nat Nat)]).get? 0
        = some { config := 5, request_strategy := 1 }) ∧
    (paginated_wrap (some 3) none (fun tc => tc.request_strategy) samplePageStore 0
        = some (.queryParam 3,
                samplePageStore ++ [{ config := 5, request_strategy := .queryParam 3 }]) ∧
     (samplePageStore ++ [({ config := 5, request_strategy := .queryParam 3 }
          : StrategyClient Nat (PaginationStrategy Nat Nat))]).get? 0
        = some { config := 5, request_strategy := .url none }) :=
  strategy_substitution_scoped sampleStore 0 2 (fun tc => tc.request_strategy)
    { config := 5, request_strategy := 1 } rfl
    samplePageStore 0 (some 3) none (fun tc => tc.request_strategy)
    { config := 5, request_strategy := .url none } rfl

end ApiClient
